import Mathlib

/-!
Shallow embedding of the tidal-analysis pipeline (tidal_analysis.py).

Timestamps are modelled as integers: seconds since 1970-01-01 00:00:00
(the resolution of the data is seconds; pandas datetimes are exact at that
resolution).  Sea-level / residual values are rationals; a missing value
(pandas NaN produced by failed numeric coercion) is `Option.none`.
Fallible operations (pandas/scipy calls that raise) return `Except String`.
-/

/-- A row of the tide DataFrame: the datetime index entry plus the two
numeric columns.  `none` models NaN. -/
structure Row where
  t : Int
  seaLevel : Option Rat
  residual : Option Rat
deriving DecidableEq

/-- A pandas DataFrame as used by the pipeline: a column schema (compared by
`join_data`), the rows in index order as stored, and an optional timezone
offset (seconds east of UTC) carried by the DatetimeIndex; `none` = naive
index.  For a tz-aware index, `Row.t` is the wall-clock reading in that
timezone. -/
structure DataFrame where
  cols : List String
  rows : List Row
  tz : Option Int
deriving DecidableEq

/-- The column schema every frame produced by `read_tidal_data` carries. -/
def stdCols : List String := ["Date", "Time", "Sea Level", "Residual"]

/-- dropna on the Sea Level column: keep the rows whose Sea Level is
not NaN. -/
def validRows (data : DataFrame) : List Row :=
  data.rows.filter (fun r => r.seaLevel.isSome)

/-- Insert a row into a list sorted by timestamp. -/
def insertRow (r : Row) : List Row → List Row
  | [] => [r]
  | s :: rest => if r.t ≤ s.t then r :: s :: rest else s :: insertRow r rest

/-- `sort_index()`: sort rows by timestamp (ascending; the relative order of
rows with equal timestamps is implementation-defined in pandas, whose default
sort is not stable, so any comparison sort is a faithful model). -/
def sortRows : List Row → List Row
  | [] => []
  | r :: rest => insertRow r (sortRows rest)

/-! ### Calendar model

pandas datetimes follow the proleptic Gregorian calendar.  `daysFromCivil`
and `civilFromDays` are the standard exact conversions between a calendar
date and a day count relative to 1970-01-01 (floor division throughout,
matching Python // semantics).  `yearOf` models `DatetimeIndex.year` on a
timestamp in seconds. -/

/-- Day count of the civil date (y, m, d) relative to 1970-01-01. -/
def daysFromCivil (y m d : Int) : Int :=
  let y2 := if m ≤ 2 then y - 1 else y
  let era := Int.fdiv y2 400
  let yoe := y2 - era * 400
  let mp := Int.fmod (m + 9) 12
  let doy := Int.fdiv (153 * mp + 2) 5 + d - 1
  let doe := yoe * 365 + Int.fdiv yoe 4 - Int.fdiv yoe 100 + doy
  era * 146097 + doe - 719468

/-- Civil date (year, month, day) of a day count relative to 1970-01-01. -/
def civilFromDays (z0 : Int) : Int × Int × Int :=
  let z := z0 + 719468
  let era := Int.fdiv z 146097
  let doe := z - era * 146097
  let yoe := Int.fdiv (doe - Int.fdiv doe 1460 + Int.fdiv doe 36524 - Int.fdiv doe 146096) 365
  let y := yoe + era * 400
  let doy := doe - (365 * yoe + Int.fdiv yoe 4 - Int.fdiv yoe 100)
  let mp := Int.fdiv (5 * doy + 2) 153
  let d := doy - Int.fdiv (153 * mp + 2) 5 + 1
  let m := mp + (if mp < 10 then 3 else -9)
  (if m ≤ 2 then y + 1 else y, m, d)

/-- `DatetimeIndex.year` of a timestamp in seconds since 1970-01-01. -/
def yearOf (t : Int) : Int :=
  (civilFromDays (Int.fdiv t 86400)).1

/-! ### Mean removal (shared by both slicing operations) -/

/-- pandas `Series.mean` of the Sea Level column: skips NaN; NaN when there
is no valid value at all. -/
def meanSeaLevel (rows : List Row) : Option Rat :=
  let vs := rows.filterMap (fun r => r.seaLevel)
  if vs.length = 0 then none else some (vs.sum / (vs.length : Rat))

/-- Subtract the mean of the Sea Level column from every Sea Level value
(NaN - m = NaN, and v - NaN = NaN, exactly as pandas propagates NaN). -/
def removeMeanRows (rows : List Row) : List Row :=
  let m := meanSeaLevel rows
  rows.map (fun r =>
    { r with seaLevel :=
        match r.seaLevel, m with
        | some v, some mv => some (v - mv)
        | _, _ => none })

/-- `extract_single_year_remove_mean(year, data)` (lines 35-41): filter to the
rows whose index year equals `year`, take a copy, and subtract the yearly
mean from the Sea Level column of that copy. -/
def extract_single_year_remove_mean (year : Int) (data : DataFrame) : DataFrame :=
  { data with rows := removeMeanRows (data.rows.filter (fun r => yearOf r.t == year)) }

/-! ### Date-string parsing for extract_section_remove_mean

`pd.to_datetime(s, format="%Y%m%d")` is modelled from the CPython strptime
machinery that pandas reuses: the %Y directive matches exactly four digits,
while %m and %d each match one or two digits (alternatives tried in regex
order, with backtracking from the day to the month token), the whole string
must be consumed, and the resulting (y, m, d) must be a valid calendar
date.  (pandas also has a numeric fast path special-cased for the exact
format string %Y%m%d; on the strings where that fast path succeeds it
agrees with strptime, and on every other string it falls back to strptime,
so strptime semantics are the observable behaviour.) -/

/-- Numeric value of a digit character. -/
def digitVal (c : Char) : Int :=
  (c.toNat : Int) - 48

/-- The %m directive: month alternatives in regex alternation order
(two-digit 10-12, two-digit 01-09, then a single digit 1-9), each returning
the parsed month and the unconsumed characters. -/
def monthAlts : List Char → List (Int × List Char)
  | c1 :: c2 :: rest =>
      (if c1 = '1' ∧ ('0' ≤ c2 ∧ c2 ≤ '2') then [(10 + digitVal c2, rest)] else []) ++
      (if c1 = '0' ∧ ('1' ≤ c2 ∧ c2 ≤ '9') then [(digitVal c2, rest)] else []) ++
      (if '1' ≤ c1 ∧ c1 ≤ '9' then [(digitVal c1, c2 :: rest)] else [])
  | [c1] =>
      if '1' ≤ c1 ∧ c1 ≤ '9' then [(digitVal c1, [])] else []
  | [] => []

/-- The %d directive: first day alternative that matches, in regex
alternation order (30-31, 10-29, 01-09, then a single digit 1-9). -/
def dayAlt : List Char → Option (Int × List Char)
  | c1 :: c2 :: rest =>
      if c1 = '3' ∧ (c2 = '0' ∨ c2 = '1') then some (30 + digitVal c2, rest)
      else if (c1 = '1' ∨ c1 = '2') ∧ ('0' ≤ c2 ∧ c2 ≤ '9') then
        some (10 * digitVal c1 + digitVal c2, rest)
      else if c1 = '0' ∧ ('1' ≤ c2 ∧ c2 ≤ '9') then some (digitVal c2, rest)
      else if '1' ≤ c1 ∧ c1 ≤ '9' then some (digitVal c1, c2 :: rest)
      else none
  | [c1] =>
      if '1' ≤ c1 ∧ c1 ≤ '9' then some (digitVal c1, []) else none
  | [] => none

/-- Number of days in a month of the proleptic Gregorian calendar. -/
def daysInMonth (y m : Int) : Int :=
  if m = 2 then
    if Int.fmod y 4 = 0 ∧ (Int.fmod y 100 ≠ 0 ∨ Int.fmod y 400 = 0) then 29 else 28
  else if m = 4 ∨ m = 6 ∨ m = 9 ∨ m = 11 then 30
  else 31

/-- Try the month alternatives in order; for the first one whose remainder
also matches a day, check full consumption and calendar validity and return
midnight of the parsed date in seconds since 1970-01-01. -/
def finishParse (y : Int) : List (Int × List Char) → Except String Int
  | [] => .error "time data does not match format"
  | (m, rest) :: others =>
      match dayAlt rest with
      | none => finishParse y others
      | some (d, rest2) =>
          if rest2 ≠ [] then .error "unconverted data remains"
          else if y = 0 then .error "year 0 is out of range"
          else if d > daysInMonth y m then .error "day is out of range for month"
          else .ok (86400 * daysFromCivil y m d)

/-- `pd.to_datetime(s, format="%Y%m%d")`, returning midnight of the parsed
date in seconds since 1970-01-01, or the error the parse raises. -/
def toDatetimeYMD (s : String) : Except String Int :=
  match s.data with
  | c1 :: c2 :: c3 :: c4 :: rest =>
      if c1.isDigit ∧ c2.isDigit ∧ c3.isDigit ∧ c4.isDigit then
        let y := 1000 * digitVal c1 + 100 * digitVal c2 + 10 * digitVal c3 + digitVal c4
        finishParse y (monthAlts rest)
      else .error "time data does not match format"
  | _ => .error "time data does not match format"

/-- `extract_section_remove_mean(start, end, data)` (lines 43-56): parse both
dates with format %Y%m%d, move the end bound to end + 1 day - 1 hour, filter
to the inclusive window, take a copy, and subtract the section mean from the
Sea Level column of that copy. -/
def extract_section_remove_mean (start finish : String) (data : DataFrame) :
    Except String DataFrame :=
  match toDatetimeYMD start with
  | .error e => .error e
  | .ok start_date =>
      match toDatetimeYMD finish with
      | .error e => .error e
      | .ok end_date0 =>
          let end_date := end_date0 + 86400 - 3600
          let sectionRows :=
            data.rows.filter (fun r => decide (start_date ≤ r.t ∧ r.t ≤ end_date))
          .ok { data with rows := removeMeanRows sectionRows }

/-- `join_data(data1, data2)` (lines 58-71): if the column schemas differ,
return `data1` unchanged; otherwise concatenate and sort by index. -/
def join_data (data1 data2 : DataFrame) : DataFrame :=
  if data1.cols = data2.cols then
    { data1 with rows := sortRows (data1.rows ++ data2.rows) }
  else data1

/-! ### Gap detection (lines 129-147)

`data.index.to_series().diff()` labels the difference t_i - t_(i-1) with the
row where it is computed, i.e. with the LATER timestamp t_i of the pair; the
Start column of the gap table is built from those labels (`gaps.index`), so
it carries the first observation after each gap, and End = Start + delta. -/

/-- One row of the gap table: the Start, End and Gap Duration (seconds)
columns. -/
structure GapRow where
  start : Int
  stop : Int
  duration : Int
deriving DecidableEq

/-- Walk the sorted valid timestamps; for every consecutive pair whose delta
exceeds hours*3600, emit the row the code emits: Start = the later
timestamp of the pair (the diff label), End = Start + delta. -/
def gapRowsOf (hours : Int) : List Int → List GapRow
  | t0 :: t1 :: rest =>
      (if hours * 3600 < t1 - t0 then
        [{ start := t1, stop := t1 + (t1 - t0), duration := t1 - t0 }] else []) ++
      gapRowsOf hours (t1 :: rest)
  | _ => []

/-- `get_gaps_in_data(data, hours)`: dropna on Sea Level, sort by index,
keep the strict threshold exceedances of the consecutive deltas. -/
def get_gaps_in_data (data : DataFrame) (hours : Int) : List GapRow :=
  gapRowsOf hours ((sortRows (validRows data)).map (fun r => r.t))

/-! ### Longest contiguous block (lines 114-127) -/

/-- Group ids after the first row: the running count of deltas strictly
above the threshold (`(time_diff > hours*3600).cumsum()`; the first diff is
NaN, and NaN > x is False, so the first row always has group id 0). -/
def groupIdsAux (hours : Int) : Int → Nat → List Int → List Nat
  | _, _, [] => []
  | prev, g, t :: rest =>
      let g2 := if hours * 3600 < t - prev then g + 1 else g
      g2 :: groupIdsAux hours t g2 rest

/-- Group id of every row of a sorted timestamp list. -/
def groupIds (hours : Int) : List Int → List Nat
  | [] => []
  | t0 :: rest => 0 :: groupIdsAux hours t0 0 rest

/-- `data.groupby(group).size().idxmax()`: the group keys are the distinct
ids in ascending order; idxmax returns the first key attaining the maximal
size, and raises ValueError on an empty frame. -/
def argmaxGroupSize (gids : List Nat) : Except String Nat :=
  match gids with
  | [] => .error "attempt to get argmax of an empty sequence"
  | _ =>
      .ok ((List.range (gids.foldr max 0 + 1)).foldl
        (fun best k => if gids.count best < gids.count k then k else best) 0)

/-- `get_longest_contiguous_data(data, hours)`: dropna on Sea Level, sort by
index, split at deltas strictly above hours*3600, return the rows of the
first group of maximal size. -/
def get_longest_contiguous_data (data : DataFrame) (hours : Int) :
    Except String DataFrame :=
  let d := sortRows (validRows data)
  let gids := groupIds hours (d.map (fun r => r.t))
  match argmaxGroupSize gids with
  | .error e => .error e
  | .ok g => .ok { data with rows := ((d.zip gids).filter (fun p => p.2 == g)).map (fun p => p.1) }

/-! ### Linear regression (scipy.stats.linregress) and sea_level_rise

The regression kernel itself is an external numerical library (scipy); it
is modelled by an abstract parameter `lr` giving the (slope, p-value) pair
on a nondegenerate point set, together with the degenerate behaviour fixed
by the scipy source: an empty input raises, an input of at least two points
whose x values are all identical raises ValueError, and a single point
yields 0/0 divisions, i.e. a (NaN, NaN) result.  The x axis the code passes
is date2num(index), a strictly monotone injection of the timestamp, so two
x values coincide exactly when the two timestamps coincide; the abstract
kernel absorbs the affine change of axis. -/

/-- A float as returned by the regression kernel: NaN or a numeric value. -/
inductive RVal where
  | nan : RVal
  | val : Rat → RVal
deriving DecidableEq

/-- scipy.stats.linregress, degenerate cases from the scipy source and the
nondegenerate result delegated to the abstract kernel `lr`. -/
def linregress (lr : List (Int × Rat) → RVal × RVal) (pts : List (Int × Rat)) :
    Except String (RVal × RVal) :=
  if pts.length = 0 then .error "Inputs must not be empty."
  else if 1 < pts.length ∧ ∀ p ∈ pts, ∀ q ∈ pts, p.1 = q.1 then
    .error "Cannot calculate a linear regression if all x values are identical"
  else if pts.length = 1 then .ok (.nan, .nan)
  else .ok (lr pts)

/-- `sea_level_rise(data)` (lines 73-89): dropna on Sea Level, sort by
index; if nothing is left return the (0.0, 1.0) default, otherwise regress
Sea Level on the numeric time axis. -/
def sea_level_rise (lr : List (Int × Rat) → RVal × RVal) (data : DataFrame) :
    Except String (RVal × RVal) :=
  let d := sortRows (validRows data)
  if d.isEmpty then .ok (.val 0, .val 1)
  else linregress lr (d.map (fun r => (r.t, r.seaLevel.getD 0)))

/-! ### Per-year trends (lines 149-170) -/

/-- Minimum of a list of integers (the empty case is never taken by the
call sites, which guard on nonemptiness). -/
def listMin : List Int → Int
  | [] => 0
  | [x] => x
  | x :: y :: rest => min x (listMin (y :: rest))

/-- Maximum of a list of integers. -/
def listMax : List Int → Int
  | [] => 0
  | [x] => x
  | x :: y :: rest => max x (listMax (y :: rest))

/-- The calendar year of every index entry (`data.index.year`, over all
rows, NaN Sea Level included). -/
def yearsOf (data : DataFrame) : List Int :=
  data.rows.map (fun r => yearOf r.t)

/-- `range(start, end + 1)` over the index years. -/
def yearRange (data : DataFrame) : List Int :=
  (List.range (listMax (yearsOf data) - listMin (yearsOf data) + 1).toNat).map
    (fun i : Nat => listMin (yearsOf data) + (i : Int))

/-- One `calculate_for_year` call per year, propagating the first raised
exception, as the Python loop does. -/
def rowsForYears (lr : List (Int × Rat) → RVal × RVal) (data : DataFrame) :
    List Int → Except String (List (Int × (RVal × RVal)))
  | [] => .ok []
  | y :: ys =>
      match sea_level_rise lr (extract_single_year_remove_mean y data) with
      | .error e => .error e
      | .ok p =>
          match rowsForYears lr data ys with
          | .error e => .error e
          | .ok rest => .ok ((y, p) :: rest)

/-- `get_sea_level_rise_per_year(data)` (lines 149-170): on an empty index,
`index.year.min()` is NaN and `range(nan, nan + 1)` raises TypeError;
otherwise one (Year, Rate of Change, Significance Level) row per year from
the minimum to the maximum index year. -/
def get_sea_level_rise_per_year (lr : List (Int × Rat) → RVal × RVal)
    (data : DataFrame) : Except String (List (Int × (RVal × RVal))) :=
  if data.rows.isEmpty then
    .error "float object cannot be interpreted as an integer"
  else rowsForYears lr data (yearRange data)

/-! ### Observable effect on the caller (frame conditions)

Python passes DataFrames by reference; the `_state` wrappers below pair
each result with the state of the caller-owned argument frame(s) after the
call, read off the source statement by statement: a statement that rebinds
the local name (`data = data.dropna(...)`) or mutates a fresh `.copy()` is
invisible to the caller, while an attribute assignment on the argument
itself (`data.index = ...`) is caller-visible. -/

/-- A scalar datetime argument (naive or tz-aware), as passed for
`start_datetime`. -/
structure TimePoint where
  t : Int
  tz : Option Int
deriving DecidableEq

/-- Lines 35-41: the year filter produces a fresh frame and line 38 takes a
`.copy()` of it before the in-place mean subtraction, so the caller frame
is untouched. -/
def extract_single_year_state (year : Int) (data : DataFrame) :
    DataFrame × DataFrame :=
  (extract_single_year_remove_mean year data, data)

/-- Lines 43-56: the window filter produces a fresh frame and line 52 takes
a `.copy()` of it before the in-place mean subtraction, so the caller frame
is untouched. -/
def extract_section_state (start finish : String) (data : DataFrame) :
    Except String DataFrame × DataFrame :=
  (extract_section_remove_mean start finish data, data)

/-- Lines 58-71: `pd.concat` allocates a new frame and `sort_index(inplace=True)`
mutates only that new frame, so both caller frames are untouched. -/
def join_data_state (data1 data2 : DataFrame) :
    DataFrame × (DataFrame × DataFrame) :=
  (join_data data1 data2, (data1, data2))

/-- Lines 73-89: `data = data.dropna(...)` and `data = data.sort_index()`
rebind the local name to fresh frames, so the caller frame is untouched. -/
def sea_level_rise_state (lr : List (Int × Rat) → RVal × RVal)
    (data : DataFrame) : Except String (RVal × RVal) × DataFrame :=
  (sea_level_rise lr data, data)

/-- Strip a tz-aware index to naive UTC: `tz_convert("utc").tz_localize(None)`
turns a wall-clock reading in the zone into the UTC wall-clock reading and
drops the zone. -/
def stripTz (data : DataFrame) : DataFrame :=
  match data.tz with
  | none => data
  | some off =>
      { data with rows := data.rows.map (fun r => { r with t := r.t - off }), tz := none }

/-- The same normalization on the scalar start_datetime. -/
def stripTzPoint (p : TimePoint) : TimePoint :=
  match p.tz with
  | none => p
  | some off => { t := p.t - off, tz := none }

/-- `tidal_analysis(data, constituents, start_datetime)` (lines 91-112): the
harmonic decomposition itself (uptide.harmonic_analysis) is an external
collaborator, so the model returns what the code hands it: the valid Sea
Level values paired with their elapsed seconds since start_datetime.
Line 98-99 assigns `data.index = ...` on the argument frame itself whenever
the index is tz-aware — a caller-visible mutation — while the later
`data = data.dropna(...)` only rebinds the local name; the second component
is therefore the caller frame after the call. -/
def tidal_analysis_state (data : DataFrame) (start : TimePoint) :
    List (Rat × Int) × DataFrame :=
  let data1 := if data.tz.isSome then stripTz data else data
  let start1 := stripTzPoint start
  let valid := data1.rows.filter (fun r => r.seaLevel.isSome)
  (valid.map (fun r => (r.seaLevel.getD 0, r.t - start1.t)), data1)

deriving instance DecidableEq for Except

/-! ### Derived notions used by the statements -/

/-- The timestamps of the valid (non-NaN Sea Level) observations of one
calendar year, in stored order. -/
def yearValidTs (data : DataFrame) (y : Int) : List Int :=
  ((data.rows.filter (fun r => yearOf r.t == y)).filter
    (fun r => r.seaLevel.isSome)).map (fun r => r.t)

/-- A year on which scipy raises inside the per-year loop: at least two
valid observations, all carrying one identical timestamp (hence one
identical regression abscissa). -/
def degenerateYear (data : DataFrame) (y : Int) : Prop :=
  2 ≤ (yearValidTs data y).length ∧
    ∀ a ∈ yearValidTs data y, ∀ b ∈ yearValidTs data y, a = b

instance (data : DataFrame) (y : Int) : Decidable (degenerateYear data y) := by
  unfold degenerateYear
  infer_instance

/-- The (Rate of Change, Significance Level) pair the per-year loop records
for one year (the error branch is unreachable whenever the year is not
degenerate). -/
def rowOf (lr : List (Int × Rat) → RVal × RVal) (data : DataFrame) (y : Int) :
    RVal × RVal :=
  match sea_level_rise lr (extract_single_year_remove_mean y data) with
  | .ok p => p
  | .error _ => (.nan, .nan)

/-! ### Concrete frames used by the closed evaluations -/

/-- The empty series. -/
def emptyDF : DataFrame := ⟨stdCols, [], none⟩

/-- Two valid hourly-data observations 20 hours apart: one gap above the
6-hour threshold. -/
def c1DF : DataFrame := ⟨stdCols, [⟨0, some 1, none⟩, ⟨72000, some 2, none⟩], none⟩

/-- A series with a timezone-aware index (UTC+1) and one observation. -/
def c2DF : DataFrame := ⟨stdCols, [⟨3600, some 1, none⟩], some 3600⟩

/-- A naive start_datetime at the epoch. -/
def c2P : TimePoint := ⟨0, none⟩

/-- A series whose single year (1970) holds exactly one valid observation. -/
def c3DF : DataFrame := ⟨stdCols, [⟨0, some 1, none⟩], none⟩

/-- A kernel that would even return the documented default, to stress that
the recorded row does not come from the kernel. -/
def defaultLR : List (Int × Rat) → RVal × RVal := fun _ => (.val 0, .val 1)

/-- Spanning 1970 and 1972 (1971 has no data), two valid observations with
distinct timestamps in each populated year. -/
def w3DF : DataFrame :=
  ⟨stdCols, [⟨0, some 1, none⟩, ⟨86400, some 2, none⟩,
             ⟨63072000, some 3, none⟩, ⟨63075600, some 4, none⟩], none⟩

/-- One valid and one NaN observation. -/
def w4DF : DataFrame := ⟨stdCols, [⟨5, some 3, none⟩, ⟨9, none, none⟩], none⟩

/-- A single observation on the final calendar day of a requested window,
at 23:30 — inside the day, outside the window the code builds. -/
def c5DF : DataFrame := ⟨stdCols, [⟨946769400, some 1, none⟩], none⟩

/-- Two observations on 2000-01-01 and 2000-01-02 23:00, plus one at
2000-01-02 23:30. -/
def w5DF : DataFrame :=
  ⟨stdCols, [⟨946684800, some 1, none⟩, ⟨946854000, some 3, none⟩,
             ⟨946855800, some 5, none⟩], none⟩

/-- A frame with a different column schema (as a raw unnamed-column file
would produce). -/
def otherColsDF : DataFrame := ⟨["0", "1", "2", "3"], [⟨7, some 2, none⟩], none⟩

/-- A small schema-compatible pair for the fusion witness. -/
def w7aDF : DataFrame := ⟨stdCols, [⟨10, some 1, none⟩, ⟨0, some 2, none⟩], none⟩

/-- Second operand overlapping the first in time. -/
def w7bDF : DataFrame := ⟨stdCols, [⟨5, none, some 3⟩, ⟨10, some 4, none⟩], none⟩

/-- A non-empty series whose Sea Level column is entirely NaN. -/
def w8DF : DataFrame := ⟨stdCols, [⟨0, none, some 1⟩, ⟨3600, none, none⟩], none⟩

/-- One observation of 2000-01-03, used to show how the six-digit string
200013 is interpreted. -/
def c9DF : DataFrame := ⟨stdCols, [⟨946900800, some 2, none⟩], none⟩

/-- The section 2000-01-01 .. 2000-01-02 of w5DF after mean removal: the
23:00 observation of the final day is kept, the 23:30 one is not. -/
def w5res : DataFrame :=
  ⟨stdCols, [⟨946684800, some (-1), none⟩, ⟨946854000, some 1, none⟩], none⟩

/-- The section 200013 .. 200013 of c9DF after mean removal: a whole day of
data selected by a six-digit date string. -/
def c9res : DataFrame := ⟨stdCols, [⟨946900800, some 0, none⟩], none⟩

/-! ## Theorems -/

theorem insertRow_perm (r : Row) (l : List Row) : List.Perm (insertRow r l) (r :: l) := by
  induction l with
  | nil => rfl
  | cons s rest ih =>
      by_cases h : r.t ≤ s.t
      · simp [insertRow, h]
      · simp only [insertRow, h, if_false]
        exact List.Perm.trans (List.Perm.cons s ih) (List.Perm.swap r s rest)

theorem sortRows_perm (l : List Row) : List.Perm (sortRows l) l := by
  induction l with
  | nil => rfl
  | cons r rest ih =>
      exact List.Perm.trans (insertRow_perm r (sortRows rest)) (List.Perm.cons r ih)

theorem insertRow_sorted (r : Row) (l : List Row)
    (h : List.Pairwise (fun a b : Row => a.t ≤ b.t) l) :
    List.Pairwise (fun a b : Row => a.t ≤ b.t) (insertRow r l) := by
  induction l with
  | nil => simp [insertRow]
  | cons s rest ih =>
      rcases List.pairwise_cons.mp h with ⟨hs, hrest⟩
      by_cases hle : r.t ≤ s.t
      · simp only [insertRow, hle, if_true]
        refine List.pairwise_cons.mpr ⟨?_, h⟩
        intro b hb
        rcases List.mem_cons.mp hb with hb | hb
        · exact hb ▸ hle
        · exact le_trans hle (hs b hb)
      · simp only [insertRow, hle, if_false]
        refine List.pairwise_cons.mpr ⟨?_, ih hrest⟩
        intro b hb
        have hmem : b ∈ r :: rest := (insertRow_perm r rest).mem_iff.mp hb
        rcases List.mem_cons.mp hmem with hb | hb
        · exact hb ▸ le_of_lt (lt_of_not_le hle)
        · exact hs b hb

theorem sortRows_sorted (l : List Row) :
    List.Pairwise (fun a b : Row => a.t ≤ b.t) (sortRows l) := by
  induction l with
  | nil => exact List.Pairwise.nil
  | cons r rest ih => exact insertRow_sorted r (sortRows rest) ih

/-- Claim C6: for every pair of series whose column schemas are not
identical, join_data does not raise and returns exactly the first operand,
unchanged. -/
theorem C6_join_mismatched_schema_returns_first (a b : DataFrame)
    (h : a.cols ≠ b.cols) : join_data a b = a := by
  simp [join_data, h]

/-- Witness for C6 at a concrete mismatched pair. -/
theorem C6_join_mismatched_schema_returns_first_witness :
    w7aDF.cols ≠ otherColsDF.cols ∧ join_data w7aDF otherColsDF = w7aDF :=
  ⟨by decide, C6_join_mismatched_schema_returns_first w7aDF otherColsDF (by decide)⟩

/-- Claim C7: for every pair of schema-compatible series, join_data is the
multiset union of the rows of both operands sorted ascending (thus without
deduplication of identical timestamps), and in particular fusing a series
with itself doubles its length. -/
theorem C7_join_is_sorted_multiset_union (a b : DataFrame)
    (h : a.cols = b.cols) :
    List.Perm (join_data a b).rows (a.rows ++ b.rows) ∧
    List.Pairwise (fun r s : Row => r.t ≤ s.t) (join_data a b).rows ∧
    (join_data a a).rows.length = 2 * a.rows.length := by
  refine ⟨?_, ?_, ?_⟩
  · simp only [join_data, h, if_true]
    exact sortRows_perm (a.rows ++ b.rows)
  · simp only [join_data, h, if_true]
    exact sortRows_sorted (a.rows ++ b.rows)
  · simp only [join_data, if_true]
    have := (sortRows_perm (a.rows ++ a.rows)).length_eq
    simp only [List.length_append] at this
    simpa [this] using by omega

/-- Witness for C7 at a concrete schema-compatible pair. -/
theorem C7_join_is_sorted_multiset_union_witness :
    List.Perm (join_data w7aDF w7bDF).rows (w7aDF.rows ++ w7bDF.rows) ∧
    List.Pairwise (fun r s : Row => r.t ≤ s.t) (join_data w7aDF w7bDF).rows ∧
    (join_data w7aDF w7aDF).rows.length = 2 * w7aDF.rows.length :=
  C7_join_is_sorted_multiset_union w7aDF w7bDF (by decide)

/-- Claim C8: for every series in which no valid Sea Level record remains
after dropping missing values — the empty series included — sea_level_rise
does not fail and returns exactly the default pair (0.0, 1.0). -/
theorem C8_trend_default_on_all_missing (lr : List (Int × Rat) → RVal × RVal)
    (data : DataFrame) (h : validRows data = []) :
    sea_level_rise lr data = .ok (.val 0, .val 1) := by
  simp [sea_level_rise, h, sortRows]

/-- Witness for C8 at a non-empty series whose Sea Level column is all
NaN (and any kernel). -/
theorem C8_trend_default_on_all_missing_witness :
    validRows w8DF = [] ∧ sea_level_rise defaultLR w8DF = .ok (.val 0, .val 1) :=
  ⟨by decide, C8_trend_default_on_all_missing defaultLR w8DF (by decide)⟩

/-- Claim C10: applied to a series with an empty index, the per-year trend
aggregation fails (index.year.min() is NaN and range(nan, nan + 1) raises
TypeError) instead of returning an empty table. -/
theorem C10_per_year_fails_on_empty_index (lr : List (Int × Rat) → RVal × RVal)
    (data : DataFrame) (h : data.rows = []) :
    get_sea_level_rise_per_year lr data =
      .error "float object cannot be interpreted as an integer" := by
  simp [get_sea_level_rise_per_year, h]

/-- Witness for C10 at the concrete empty frame. -/
theorem C10_per_year_fails_on_empty_index_witness :
    get_sea_level_rise_per_year defaultLR emptyDF =
      .error "float object cannot be interpreted as an integer" :=
  C10_per_year_fails_on_empty_index defaultLR emptyDF (by decide)

/-- Claim C1 (code bug evaluation): on two valid observations 20 hours
apart with a 6-hour threshold, the single gap row the code produces carries
Start = 72000 (the first observation AFTER the gap, because Series.diff
labels each delta with the later row) and End = 144000 (a time after data
has already resumed), not Start = 0 and End = 72000 as the gap between the
two observations would require; only the duration is the true delta. -/
theorem C1_gap_row_start_is_later_timestamp :
    get_gaps_in_data c1DF 6 =
      [{ start := 72000, stop := 144000, duration := 72000 }] ∧
    (0 : Int) < 72000 - 0 ∧ 6 * 3600 < (72000 : Int) - 0 := by
  exact ⟨by decide, by decide, by decide⟩

/-- Counterexample to claim C2 as stated: on a series whose index is
timezone-aware, tidal_analysis reassigns the index of the caller-owned
frame in place (line 98-99), so the caller-visible state after the call
differs from the input. -/
theorem C2_cex_tz_aware_input_is_mutated :
    (tidal_analysis_state c2DF c2P).2 ≠ c2DF := by
  decide

/-- Claim C2 (amended): slicing, fusion and trend estimation always leave
the caller frames unmodified (all in-place mutation happens on fresh
copies), and harmonic analysis leaves its input unmodified whenever the
index is timezone-naive; the sole caller-visible mutation in the pipeline
is the in-place index normalization tidal_analysis performs on a
timezone-aware input. -/
theorem C2_inputs_unmodified (lr : List (Int × Rat) → RVal × RVal)
    (year : Int) (s e : String) (a b data : DataFrame) (st : TimePoint) :
    (extract_single_year_state year data).2 = data ∧
    (extract_section_state s e data).2 = data ∧
    (join_data_state a b).2 = (a, b) ∧
    (sea_level_rise_state lr data).2 = data ∧
    (data.tz = none → (tidal_analysis_state data st).2 = data) := by
  refine ⟨rfl, rfl, rfl, rfl, fun h => ?_⟩
  simp [tidal_analysis_state, h]

/-- Witness for C2 at concrete arguments, with the timezone-naive premise
discharged on a concrete naive frame. -/
theorem C2_inputs_unmodified_witness :
    (extract_single_year_state 1970 w3DF).2 = w3DF ∧
    (tidal_analysis_state w3DF c2P).2 = w3DF :=
  ⟨(C2_inputs_unmodified defaultLR 1970 "20000101" "20000102" w7aDF w7bDF w3DF c2P).1,
   (C2_inputs_unmodified defaultLR 1970 "20000101" "20000102" w7aDF w7bDF w3DF c2P).2.2.2.2 rfl⟩

/-- Counterexample to claim C4 as stated: on the empty series the code does
raise — groupby(...).size().idxmax() is an argmax over an empty sequence —
instead of returning the series unchanged. -/
theorem C4_cex_longest_raises_on_empty :
    get_longest_contiguous_data emptyDF 6 =
      .error "attempt to get argmax of an empty sequence" := by
  rfl

/-- Claim C4 (amended): a series with fewer than 2 valid records yields
zero gaps; with exactly one valid record the longest-run query returns the
frame restricted to its valid records (sorted), while with zero valid
records it raises the idxmax ValueError instead of returning the empty
series. -/
theorem C4_few_valid_records (data : DataFrame) (hours : Int)
    (h : (validRows data).length < 2) :
    get_gaps_in_data data hours = [] ∧
    get_longest_contiguous_data data hours =
      (if (validRows data).length = 0 then
        .error "attempt to get argmax of an empty sequence"
      else .ok { data with rows := validRows data }) := by
  match hv : validRows data with
  | [] =>
      refine ⟨?_, ?_⟩
      · simp [get_gaps_in_data, hv, sortRows, gapRowsOf]
      · simp [get_longest_contiguous_data, hv, sortRows, groupIds, argmaxGroupSize]
  | [r] =>
      refine ⟨?_, ?_⟩
      · simp [get_gaps_in_data, hv, sortRows, insertRow, gapRowsOf]
      · have hrange : List.range (([0] : List Nat).foldr max 0 + 1) = [0] := by decide
        simp [get_longest_contiguous_data, hv, sortRows, insertRow, groupIds,
              groupIdsAux, argmaxGroupSize, hrange, List.zip, List.zipWith,
              List.filter, List.map]
  | r1 :: r2 :: rest =>
      exfalso
      rw [hv] at h
      simp at h
      omega

/-- Witness for C4 at a concrete frame with one valid and one NaN
record. -/
theorem C4_few_valid_records_witness :
    (validRows w4DF).length < 2 ∧
    (get_gaps_in_data w4DF 6 = [] ∧
     get_longest_contiguous_data w4DF 6 =
       (if (validRows w4DF).length = 0 then
         .error "attempt to get argmax of an empty sequence"
       else .ok { w4DF with rows := validRows w4DF })) :=
  ⟨by decide, C4_few_valid_records w4DF 6 (by decide)⟩

theorem removeMeanRows_map_t (l : List Row) :
    (removeMeanRows l).map (fun r => r.t) = l.map (fun r => r.t) := by
  simp only [removeMeanRows, List.map_map]
  rfl

/-- Counterexample to claim C5 as stated: with start = end = 20000101, the
observation at 2000-01-01 23:30 lies inside the claimed second-resolution
window [start 00:00, end + 1 day - 1 second] yet is excluded — the window
the code builds ends at end + 1 day - 1 hour. -/
theorem C5_cex_final_half_hour_excluded :
    extract_section_remove_mean "20000101" "20000101" c5DF = .ok ⟨stdCols, [], none⟩ ∧
    c5DF.rows.map (fun r => r.t) = [946769400] ∧
    toDatetimeYMD "20000101" = .ok 946684800 ∧
    ((946684800 : Int) ≤ 946769400 ∧ (946769400 : Int) ≤ 946684800 + 86400 - 1) := by
  exact ⟨rfl, rfl, rfl, by decide⟩

/-- Claim C5 (amended): whenever both date strings parse, the range slice
holds exactly the records whose timestamp lies in the inclusive window from
startDate 00:00 to endDate + 1 day - 1 HOUR (i.e. endDate 23:00; the whole
final calendar day is covered only at the hourly resolution of the data,
not at second resolution), mean removal touching values but no
timestamps. -/
theorem C5_section_window (data : DataFrame) (s e : String) (sd ed : Int)
    (res : DataFrame)
    (hs : toDatetimeYMD s = .ok sd) (he : toDatetimeYMD e = .ok ed)
    (hr : extract_section_remove_mean s e data = .ok res) :
    res.rows.map (fun r => r.t) =
      (data.rows.filter
        (fun r => decide (sd ≤ r.t ∧ r.t ≤ ed + 86400 - 3600))).map (fun r => r.t) := by
  unfold extract_section_remove_mean at hr
  simp only [hs, he] at hr
  cases hr
  exact removeMeanRows_map_t _

/-- Witness for C5 on a window ending 2000-01-02, evaluated on a frame with
observations at the start, at the final-day 23:00 bound, and just past
it. -/
theorem C5_section_window_witness :
    w5res.rows.map (fun r => r.t) =
      (w5DF.rows.filter
        (fun r => decide ((946684800 : Int) ≤ r.t ∧ r.t ≤ 946771200 + 86400 - 3600))).map
        (fun r => r.t) :=
  C5_section_window w5DF "20000101" "20000102" 946684800 946771200 w5res rfl rfl (by
    have h1 : extract_section_remove_mean "20000101" "20000102" w5DF
        = .ok { w5DF with
                rows := removeMeanRows [⟨946684800, some 1, none⟩, ⟨946854000, some 3, none⟩] } :=
      rfl
    rw [h1]
    simp only [removeMeanRows, meanSeaLevel, List.filterMap, List.map, w5DF, w5res]
    norm_num)

theorem isDigit_of_between (c : Char) (h1 : '0' ≤ c) (h2 : c ≤ '9') :
    c.isDigit = true := by
  simp only [Char.isDigit, Bool.and_eq_true, decide_eq_true_eq]
  exact ⟨h1, h2⟩

theorem dayAlt_consumes_digits (cs : List Char) (d : Int) (r2 : List Char)
    (h : dayAlt cs = some (d, r2)) :
    ∃ pre, cs = pre ++ r2 ∧ (∀ c ∈ pre, c.isDigit = true) ∧
      1 ≤ pre.length ∧ pre.length ≤ 2 := by
  match cs with
  | [] => simp [dayAlt] at h
  | [c1] =>
      by_cases h1 : '1' ≤ c1 ∧ c1 ≤ '9'
      · rw [dayAlt, if_pos h1] at h
        injection h with h2
        injection h2 with hd hr
        refine ⟨[c1], by simp [hr.symm], ?_, by simp, by simp⟩
        intro c hc
        rcases List.mem_singleton.mp hc with rfl
        exact isDigit_of_between c (le_trans (by decide) h1.1) h1.2
      · rw [dayAlt, if_neg h1] at h
        cases h
  | c1 :: c2 :: rest =>
      by_cases hA : c1 = '3' ∧ (c2 = '0' ∨ c2 = '1')
      · rw [dayAlt, if_pos hA] at h
        injection h with h2
        injection h2 with hd hr
        refine ⟨[c1, c2], by simp [hr.symm], ?_, by simp, by simp⟩
        intro c hc
        rcases hA with ⟨rfl, h2A⟩
        rcases List.mem_cons.mp hc with rfl | hc
        · decide
        rcases List.mem_singleton.mp hc with rfl
        rcases h2A with rfl | rfl <;> decide
      · by_cases hB : (c1 = '1' ∨ c1 = '2') ∧ ('0' ≤ c2 ∧ c2 ≤ '9')
        · rw [dayAlt, if_neg hA, if_pos hB] at h
          injection h with h2
          injection h2 with hd hr
          refine ⟨[c1, c2], by simp [hr.symm], ?_, by simp, by simp⟩
          intro c hc
          rcases List.mem_cons.mp hc with rfl | hc
          · rcases hB.1 with rfl | rfl <;> decide
          rcases List.mem_singleton.mp hc with rfl
          exact isDigit_of_between c hB.2.1 hB.2.2
        · by_cases hC : c1 = '0' ∧ ('1' ≤ c2 ∧ c2 ≤ '9')
          · rw [dayAlt, if_neg hA, if_neg hB, if_pos hC] at h
            injection h with h2
            injection h2 with hd hr
            refine ⟨[c1, c2], by simp [hr.symm], ?_, by simp, by simp⟩
            intro c hc
            rcases List.mem_cons.mp hc with rfl | hc
            · rcases hC with ⟨rfl, _⟩; decide
            rcases List.mem_singleton.mp hc with rfl
            exact isDigit_of_between c (le_trans (by decide) hC.2.1) hC.2.2
          · by_cases hD : '1' ≤ c1 ∧ c1 ≤ '9'
            · rw [dayAlt, if_neg hA, if_neg hB, if_neg hC, if_pos hD] at h
              injection h with h2
              injection h2 with hd hr
              refine ⟨[c1], by simp [hr.symm], ?_, by simp, by simp⟩
              intro c hc
              rcases List.mem_singleton.mp hc with rfl
              exact isDigit_of_between c (le_trans (by decide) hD.1) hD.2
            · rw [dayAlt, if_neg hA, if_neg hB, if_neg hC, if_neg hD] at h
              cases h

theorem monthAlts_consume_digits (cs : List Char) (m : Int) (r : List Char)
    (h : (m, r) ∈ monthAlts cs) :
    ∃ pre, cs = pre ++ r ∧ (∀ c ∈ pre, c.isDigit = true) ∧
      1 ≤ pre.length ∧ pre.length ≤ 2 := by
  match cs with
  | [] => simp [monthAlts] at h
  | [c1] =>
      by_cases h1 : '1' ≤ c1 ∧ c1 ≤ '9'
      · rw [monthAlts, if_pos h1] at h
        rcases List.mem_singleton.mp h with hpair
        injection hpair with hm hr
        refine ⟨[c1], by simp [hr.symm], ?_, by simp, by simp⟩
        intro c hc
        rcases List.mem_singleton.mp hc with rfl
        exact isDigit_of_between c (le_trans (by decide) h1.1) h1.2
      · rw [monthAlts, if_neg h1] at h
        cases h
  | c1 :: c2 :: rest =>
      rw [monthAlts] at h
      rcases List.mem_append.mp h with h | h
      · rcases List.mem_append.mp h with h | h
        · by_cases hA : c1 = '1' ∧ ('0' ≤ c2 ∧ c2 ≤ '2')
          · rw [if_pos hA] at h
            rcases List.mem_singleton.mp h with hpair
            injection hpair with hm hr
            refine ⟨[c1, c2], by simp [hr.symm], ?_, by simp, by simp⟩
            intro c hc
            rcases List.mem_cons.mp hc with rfl | hc
            · rcases hA with ⟨rfl, _⟩; decide
            rcases List.mem_singleton.mp hc with rfl
            exact isDigit_of_between c hA.2.1 (le_trans hA.2.2 (by decide))
          · rw [if_neg hA] at h
            cases h
        · by_cases hB : c1 = '0' ∧ ('1' ≤ c2 ∧ c2 ≤ '9')
          · rw [if_pos hB] at h
            rcases List.mem_singleton.mp h with hpair
            injection hpair with hm hr
            refine ⟨[c1, c2], by simp [hr.symm], ?_, by simp, by simp⟩
            intro c hc
            rcases List.mem_cons.mp hc with rfl | hc
            · rcases hB with ⟨rfl, _⟩; decide
            rcases List.mem_singleton.mp hc with rfl
            exact isDigit_of_between c (le_trans (by decide) hB.2.1) hB.2.2
          · rw [if_neg hB] at h
            cases h
      · by_cases hC : '1' ≤ c1 ∧ c1 ≤ '9'
        · rw [if_pos hC] at h
          rcases List.mem_singleton.mp h with hpair
          injection hpair with hm hr
          refine ⟨[c1], by simp [hr.symm], ?_, by simp, by simp⟩
          intro c hc
          rcases List.mem_singleton.mp hc with rfl
          exact isDigit_of_between c (le_trans (by decide) hC.1) hC.2
        · rw [if_neg hC] at h
          cases h

theorem finishParse_ok_shape (y v : Int) (alts : List (Int × List Char))
    (h : finishParse y alts = .ok v) :
    ∃ mr ∈ alts, ∃ d : Int, dayAlt mr.2 = some (d, ([] : List Char)) := by
  induction alts with
  | nil => simp [finishParse] at h
  | cons mr others ih =>
      match mr with
      | (m, rest) =>
        rw [finishParse] at h
        match hd : dayAlt rest with
        | none =>
            rw [hd] at h
            rcases ih h with ⟨mr2, hmem, hday⟩
            exact ⟨mr2, List.mem_cons_of_mem _ hmem, hday⟩
        | some (d, rest2) =>
            rw [hd] at h
            by_cases hr : rest2 = []
            · exact ⟨(m, rest), List.mem_cons_self _ _, d, hr ▸ hd⟩
            · dsimp only at h
              rw [if_pos hr] at h
              cases h

theorem toDatetimeYMD_ok_shape (s : String) (v : Int)
    (h : toDatetimeYMD s = .ok v) :
    (∀ c ∈ s.data, c.isDigit = true) ∧ 6 ≤ s.length ∧ s.length ≤ 8 := by
  match hs : s.data, h with
  | [], h => rw [toDatetimeYMD, hs] at h; cases h
  | [c1], h => rw [toDatetimeYMD, hs] at h; cases h
  | [c1, c2], h => rw [toDatetimeYMD, hs] at h; cases h
  | [c1, c2, c3], h => rw [toDatetimeYMD, hs] at h; cases h
  | c1 :: c2 :: c3 :: c4 :: rest, h =>
      rw [toDatetimeYMD, hs] at h
      dsimp only at h
      by_cases hd : c1.isDigit ∧ c2.isDigit ∧ c3.isDigit ∧ c4.isDigit
      · rw [if_pos hd] at h
        rcases finishParse_ok_shape _ _ _ h with ⟨⟨m, r⟩, hmem, d, hday⟩
        rcases monthAlts_consume_digits rest m r hmem with
          ⟨pre1, hrest, hdig1, hlen1a, hlen1b⟩
        rcases dayAlt_consumes_digits r d [] hday with
          ⟨pre2, hr2, hdig2, hlen2a, hlen2b⟩
        rw [List.append_nil] at hr2
        have hslen : s.length = s.data.length := rfl
        have hlen : s.length = 4 + pre1.length + pre2.length := by
          rw [hslen, hs, hrest, hr2]
          simp [List.length_append]
          omega
        refine ⟨?_, by omega, by omega⟩
        intro c hc
        rcases List.mem_cons.mp hc with rfl | hc
        · exact hd.1
        rcases List.mem_cons.mp hc with rfl | hc
        · exact hd.2.1
        rcases List.mem_cons.mp hc with rfl | hc
        · exact hd.2.2.1
        rcases List.mem_cons.mp hc with rfl | hc
        · exact hd.2.2.2
        rw [hrest, hr2] at hc
        rcases List.mem_append.mp hc with hc | hc
        · exact hdig1 c hc
        · exact hdig2 c hc
      · rw [if_neg hd] at h
        cases h

/-- Counterexample to claim C9 as stated: the six-character string 200013 —
not of the exact 8-character YYYYMMDD form — does not raise: strptime
%Y%m%d allows one-digit month and day fields, so it is accepted and
interpreted as 2000-01-03, and the range slice proceeds with that date. -/
theorem C9_cex_six_digit_date_accepted :
    toDatetimeYMD "200013" = .ok (86400 * daysFromCivil 2000 1 3) ∧
    extract_section_remove_mean "200013" "200013" c9DF = .ok c9res := by
  constructor
  · rfl
  · have h1 : extract_section_remove_mean "200013" "200013" c9DF
        = .ok { c9DF with rows := removeMeanRows [⟨946900800, some 2, none⟩] } := rfl
    rw [h1]
    simp only [removeMeanRows, meanSeaLevel, List.filterMap, List.map, c9DF, c9res]
    norm_num

/-- Claim C9 (amended): the range slice accepts a date string exactly when
strptime %Y%m%d does — every accepted string consists solely of digits,
between 6 and 8 of them (4-digit year, 1-2-digit month and day) — and on
any string that parser rejects (any other date representation included) the
raised parse error propagates out of the slicing operation unchanged. -/
theorem C9_date_format_gate (s : String) :
    (∀ v : Int, toDatetimeYMD s = .ok v →
      (∀ c ∈ s.data, c.isDigit = true) ∧ 6 ≤ s.length ∧ s.length ≤ 8) ∧
    (∀ (e : String) (data : DataFrame) (msg : String),
      toDatetimeYMD s = .error msg →
      extract_section_remove_mean s e data = .error msg) := by
  constructor
  · intro v hv
    exact toDatetimeYMD_ok_shape s v hv
  · intro e data msg hmsg
    rw [extract_section_remove_mean, hmsg]

/-- Witness for C9: a hyphenated date representation is rejected by the
slicing operation with the parse error, not reinterpreted. -/
theorem C9_date_format_gate_witness :
    extract_section_remove_mean "2000-01-03" "20000104" emptyDF =
      .error "time data does not match format" :=
  (C9_date_format_gate "2000-01-03").2 "20000104" emptyDF
    "time data does not match format" (by rfl)

theorem filter_map_t_of (f : Row → Row)
    (ht : ∀ r, (f r).t = r.t) (hv : ∀ r, (f r).seaLevel.isSome = r.seaLevel.isSome)
    (l : List Row) :
    ((l.map f).filter (fun r => r.seaLevel.isSome)).map (fun r => r.t)
      = (l.filter (fun r => r.seaLevel.isSome)).map (fun r => r.t) := by
  induction l with
  | nil => rfl
  | cons r rest ih =>
      simp only [List.map_cons, List.filter_cons, hv r]
      cases hcase : r.seaLevel.isSome
      · simpa using ih
      · simp only [if_true, List.map_cons, ht r]
        rw [ih]

theorem meanSeaLevel_none_all_none (l : List Row)
    (hm : meanSeaLevel l = none) : ∀ r ∈ l, r.seaLevel = none := by
  intro r hr
  by_cases hlen : (l.filterMap (fun r => r.seaLevel)).length = 0
  · have : l.filterMap (fun r => r.seaLevel) = [] := List.length_eq_zero.mp hlen
    have := List.filterMap_eq_nil.mp this r hr
    exact this
  · rw [meanSeaLevel] at hm
    simp only [hlen, if_false] at hm
    exact Option.noConfusion hm

theorem removeMeanRows_valid_t (l : List Row) :
    ((removeMeanRows l).filter (fun r => r.seaLevel.isSome)).map (fun r => r.t)
      = (l.filter (fun r => r.seaLevel.isSome)).map (fun r => r.t) := by
  cases hm : meanSeaLevel l with
  | some mv =>
      have : removeMeanRows l = l.map (fun r =>
          { r with seaLevel :=
              match r.seaLevel, some mv with
              | some v, some mv => some (v - mv)
              | _, _ => none }) := by
        simp only [removeMeanRows, hm]
      rw [this]
      exact filter_map_t_of
        (fun r => { r with seaLevel :=
            match r.seaLevel, some mv with
            | some v, some mv => some (v - mv)
            | _, _ => none })
        (fun r => rfl)
        (fun r => by obtain ⟨t0, sl, res⟩ := r; cases sl <;> rfl) l
  | none =>
      have hall : ∀ r ∈ l, r.seaLevel = none := meanSeaLevel_none_all_none l hm
      have h1 : (removeMeanRows l).filter (fun r => r.seaLevel.isSome) = [] := by
        rw [List.filter_eq_nil]
        intro r hr
        rcases List.mem_map.mp ((by simpa [removeMeanRows, hm] using hr :
          r ∈ l.map (fun r => { r with seaLevel :=
            (match r.seaLevel, (none : Option Rat) with
             | some v, some mv => some (v - mv)
             | _, _ => none) }))) with ⟨r0, hr0, rfl⟩
        cases hr0c : r0.seaLevel <;> simp [hr0c]
      have h2 : l.filter (fun r => r.seaLevel.isSome) = [] := by
        rw [List.filter_eq_nil]
        intro r hr
        simp [hall r hr]
      rw [h1, h2]

theorem validRows_extract_map_t (df : DataFrame) (y : Int) :
    (validRows (extract_single_year_remove_mean y df)).map (fun r => r.t)
      = yearValidTs df y := by
  simp only [validRows, extract_single_year_remove_mean, yearValidTs]
  exact removeMeanRows_valid_t _

theorem listMin_le_listMax : ∀ l : List Int, l ≠ [] → listMin l ≤ listMax l
  | [x], _ => le_refl x
  | x :: y :: rest, _ => by
      have ih := listMin_le_listMax (y :: rest) (by simp)
      simp only [listMin, listMax]
      exact le_trans (min_le_right _ _) (le_trans ih (le_max_right _ _))

theorem slr_extract_empty (lr : List (Int × Rat) → RVal × RVal)
    (df : DataFrame) (y : Int) (hT : yearValidTs df y = []) :
    sea_level_rise lr (extract_single_year_remove_mean y df) = .ok (.val 0, .val 1) := by
  have hVt := validRows_extract_map_t df y
  have hVnil : validRows (extract_single_year_remove_mean y df) = [] :=
    List.map_eq_nil.mp (by rw [hVt, hT])
  simp [sea_level_rise, hVnil, sortRows]

theorem slr_extract_single (lr : List (Int × Rat) → RVal × RVal)
    (df : DataFrame) (y : Int) (hT : (yearValidTs df y).length = 1) :
    sea_level_rise lr (extract_single_year_remove_mean y df) = .ok (.nan, .nan) := by
  have hVt := validRows_extract_map_t df y
  have hVlen : (validRows (extract_single_year_remove_mean y df)).length = 1 := by
    have hc := congrArg List.length hVt
    rw [List.length_map] at hc
    exact hc.trans hT
  have hdlen : (sortRows (validRows (extract_single_year_remove_mean y df))).length = 1 :=
    (sortRows_perm _).length_eq.trans hVlen
  obtain ⟨r, hr⟩ := List.length_eq_one.mp hdlen
  simp [sea_level_rise, hr, linregress]

theorem slr_extract_ok (lr : List (Int × Rat) → RVal × RVal)
    (df : DataFrame) (y : Int) (hdeg : ¬ degenerateYear df y) :
    ∃ p, sea_level_rise lr (extract_single_year_remove_mean y df) = .ok p := by
  have hVt := validRows_extract_map_t df y
  cases hd : sortRows (validRows (extract_single_year_remove_mean y df)) with
  | nil => exact ⟨(.val 0, .val 1), by simp [sea_level_rise, hd]⟩
  | cons r rest =>
      have hsl : sea_level_rise lr (extract_single_year_remove_mean y df)
          = linregress lr ((r :: rest).map (fun r => (r.t, r.seaLevel.getD 0))) := by
        simp [sea_level_rise, hd]
      rw [hsl]
      set pts := (r :: rest).map (fun r => (r.t, r.seaLevel.getD 0)) with hpts
      have hlen0 : pts.length ≠ 0 := by simp [hpts]
      by_cases hcond : 1 < pts.length ∧ ∀ p ∈ pts, ∀ q ∈ pts, p.1 = q.1
      · exfalso
        apply hdeg
        have hmemd : ∀ rv, rv ∈ validRows (extract_single_year_remove_mean y df) ↔
            rv ∈ r :: rest := by
          intro rv
          rw [← hd]
          exact (sortRows_perm _).mem_iff.symm
        have hlenVd : (validRows (extract_single_year_remove_mean y df)).length
            = (r :: rest).length := by
          rw [← hd]
          exact (sortRows_perm _).length_eq.symm
        constructor
        · have hTlen : (yearValidTs df y).length
              = (validRows (extract_single_year_remove_mean y df)).length := by
            rw [← hVt, List.length_map]
          rw [hTlen, hlenVd]
          have := hcond.1
          simp only [hpts, List.length_map] at this
          omega
        · intro a ha b hb
          rw [← hVt] at ha hb
          rcases List.mem_map.mp ha with ⟨ra, hra, rfl⟩
          rcases List.mem_map.mp hb with ⟨rb, hrb, rfl⟩
          have hpa : (ra.t, ra.seaLevel.getD 0) ∈ pts := by
            rw [hpts]
            exact List.mem_map.mpr ⟨ra, (hmemd ra).mp hra, rfl⟩
          have hpb : (rb.t, rb.seaLevel.getD 0) ∈ pts := by
            rw [hpts]
            exact List.mem_map.mpr ⟨rb, (hmemd rb).mp hrb, rfl⟩
          exact hcond.2 _ hpa _ hpb
      · rw [linregress, if_neg hlen0, if_neg hcond]
        by_cases h1 : pts.length = 1
        · exact ⟨(.nan, .nan), by rw [if_pos h1]⟩
        · exact ⟨lr pts, by rw [if_neg h1]⟩

theorem rowOf_eq (lr : List (Int × Rat) → RVal × RVal) (df : DataFrame)
    (y : Int) (p : RVal × RVal)
    (h : sea_level_rise lr (extract_single_year_remove_mean y df) = .ok p) :
    rowOf lr df y = p := by
  rw [rowOf, h]

theorem rowsForYears_ok (lr : List (Int × Rat) → RVal × RVal) (df : DataFrame)
    (ys : List Int) (h : ∀ y ∈ ys, ¬ degenerateYear df y) :
    rowsForYears lr df ys = .ok (ys.map (fun y => (y, rowOf lr df y))) := by
  induction ys with
  | nil => rfl
  | cons y ys ih =>
      rcases slr_extract_ok lr df y (h y (List.mem_cons_self _ _)) with ⟨p, hp⟩
      rw [rowsForYears, hp, ih (fun z hz => h z (List.mem_cons_of_mem _ hz))]
      dsimp only
      simp only [List.map_cons]
      rw [rowOf_eq lr df y p hp]

/-- Counterexample to claim C3 as stated: a series whose only year holds
exactly one valid observation does not receive the default row (0.0, 1.0) —
the single point is handed to the regression kernel, whose zero-variance
divisions return NaN for both slope and p-value (scipy raises no error only
because its identical-x check requires more than one point). -/
theorem C3_cex_single_observation_year_not_default :
    get_sea_level_rise_per_year defaultLR c3DF = .ok [(1970, (.nan, .nan))] ∧
    ((RVal.nan, RVal.nan) : RVal × RVal) ≠ (.val 0, .val 1) := by
  exact ⟨rfl, by decide⟩

/-- Claim C3 (amended): for every non-empty series none of whose years is
degenerate (two or more valid observations all on one identical timestamp,
on which scipy raises), the per-year table has exactly
endYear - startYear + 1 rows, one per integer calendar year from the
minimum to the maximum index year inclusive; every year with zero valid
observations receives the default row (0.0, 1.0), while a year with
exactly one valid observation receives the kernel NaN row (NaN, NaN)
rather than the default, without failing. -/
theorem C3_per_year_dense_rows (lr : List (Int × Rat) → RVal × RVal)
    (data : DataFrame) (h1 : data.rows ≠ [])
    (h2 : ∀ y ∈ yearRange data, ¬ degenerateYear data y) :
    get_sea_level_rise_per_year lr data =
      .ok ((yearRange data).map (fun y => (y, rowOf lr data y))) ∧
    ((yearRange data).length : Int)
      = listMax (yearsOf data) - listMin (yearsOf data) + 1 ∧
    (∀ y : Int, y ∈ yearRange data ↔
      listMin (yearsOf data) ≤ y ∧ y ≤ listMax (yearsOf data)) ∧
    (∀ y ∈ yearRange data, yearValidTs data y = [] →
      rowOf lr data y = (.val 0, .val 1)) ∧
    (∀ y ∈ yearRange data, (yearValidTs data y).length = 1 →
      rowOf lr data y = (.nan, .nan)) := by
  have hyne : yearsOf data ≠ [] := by
    intro hc
    exact h1 (List.map_eq_nil.mp hc)
  have hminmax : listMin (yearsOf data) ≤ listMax (yearsOf data) :=
    listMin_le_listMax _ hyne
  have hempty : data.rows.isEmpty = false := by
    cases hrows : data.rows with
    | nil => exact absurd hrows h1
    | cons r rest => rfl
  refine ⟨?_, ?_, ?_, ?_, ?_⟩
  · rw [get_sea_level_rise_per_year, hempty]
    simp only [Bool.false_eq_true, if_false]
    exact rowsForYears_ok lr data (yearRange data) h2
  · simp only [yearRange, List.length_map, List.length_range]
    omega
  · intro y
    constructor
    · intro hy
      rcases List.mem_map.mp hy with ⟨i, hi, rfl⟩
      have := List.mem_range.mp hi
      constructor <;> omega
    · intro ⟨hya, hyb⟩
      refine List.mem_map.mpr ⟨(y - listMin (yearsOf data)).toNat,
        List.mem_range.mpr ?_, ?_⟩ <;> omega
  · intro y _ hT
    exact rowOf_eq lr data y _ (slr_extract_empty lr data y hT)
  · intro y _ hT
    exact rowOf_eq lr data y _ (slr_extract_single lr data y hT)

/-- Witness for C3 on a series spanning 1970-1972 with an empty middle
year: three rows, the 1971 row the (0.0, 1.0) default. -/
theorem C3_per_year_dense_rows_witness :
    get_sea_level_rise_per_year defaultLR w3DF =
      .ok ((yearRange w3DF).map (fun y => (y, rowOf defaultLR w3DF y))) ∧
    ((yearRange w3DF).length : Int)
      = listMax (yearsOf w3DF) - listMin (yearsOf w3DF) + 1 ∧
    (∀ y : Int, y ∈ yearRange w3DF ↔
      listMin (yearsOf w3DF) ≤ y ∧ y ≤ listMax (yearsOf w3DF)) ∧
    (∀ y ∈ yearRange w3DF, yearValidTs w3DF y = [] →
      rowOf defaultLR w3DF y = (.val 0, .val 1)) ∧
    (∀ y ∈ yearRange w3DF, (yearValidTs w3DF y).length = 1 →
      rowOf defaultLR w3DF y = (.nan, .nan)) :=
  C3_per_year_dense_rows defaultLR w3DF (by decide) (by decide)
